import Mathlib

/-!
Verification of the mozilla_ci_tools buildjson / buildapi caching core.

The file embeds `src/mozci/buildjson.py` (the date-partitioned archive cache
`_daily_jobs` and the lookup `query_buildjson_info`) as executable Lean
functions over an explicit filesystem state, and models the repository
registry cache (`query_repositories` and its accessors, whose module is
exercised only through `src/test/test_buildapi.py`) from the specification.
-/

namespace Mozci

/-- One job record of a buildjson archive, following the schema in the
docstring of `query_buildjson_info`.  The `request_ids` field is an `Option`
so that a record missing the `"request_ids"` key can be represented
(accessing it raises a `KeyError` in Python). -/
structure JobRecord where
  builder_id : Int
  starttime : Int
  endtime : Int
  request_ids : Option (List Int)
  requesttime : Int
  result : Int
  slave_id : Int
  properties : List (String × String)
deriving Repr, DecidableEq

/-- Content of a local file or of a decompressed HTTP response body:
either a JSON document `{"builds": [...]}`, some other valid JSON document
(no `"builds"` key), or bytes that are not valid JSON (for example an HTTP
error page). -/
inductive FileContent
  | jsonArchive (builds : List JobRecord)
  | jsonOther
  | notJson (raw : String)
deriving Repr, DecidableEq

/-- Python-level failures that `query_buildjson_info` / `_daily_jobs` can
raise: a failed `assert type(x) is int`, a missing dictionary key, an
exception raised by `requests.get` (network failure), or a `ValueError`
from `json.load`. -/
inductive PyError
  | assertionError
  | keyError
  | connectionError
  | parseError
deriving Repr, DecidableEq

/-- Result of `requests.get`: either the call raises (network failure),
or it returns a response with a status code and an (already decompressed)
body.  Note the body is delivered whatever the status code is. -/
inductive HttpResult
  | netError
  | response (status : Nat) (body : FileContent)
deriving Repr, DecidableEq

/-- Observable side effects of one `_daily_jobs` call: a completed HTTP
request, an HTTP request that raised before a response was received, and a
write of the local archive file. -/
inductive ArchEvent
  | fetchOk
  | fetchFail
  | diskWrite
deriving Repr, DecidableEq

/-- The local working directory, as an association list from file name to
content; the most recent write shadows older ones. -/
abbrev FS := List (String × FileContent)

/-- Model of `os.path.exists` on the model filesystem. -/
def fsExists (fs : FS) (name : String) : Bool :=
  (fs.lookup name).isSome

/-- Writing (creating or overwriting) a file. -/
def fsWrite (fs : FS) (name : String) (c : FileContent) : FS :=
  (name, c) :: fs

/-- Reading a file that is known to exist (the default is never reached
when `fsExists` holds). -/
def readFile (fs : FS) (name : String) : FileContent :=
  (fs.lookup name).getD (.notJson "")

/-- Model of `json.load`: parsing fails with a `ValueError` on bytes that are not
valid JSON, and otherwise yields the document. -/
def jsonLoad : FileContent → Except PyError FileContent
  | .notJson _ => .error .parseError
  | c => .ok c

/-- Constant `BUILDJSON_DATA` from buildjson.py line 14. -/
def BUILDJSON_DATA : String :=
  "http://builddata.pub.build.mozilla.org/builddata/buildjson"

/-- Civil date from a count of days since the Unix epoch (proleptic
Gregorian calendar), returned as (year, month, day). -/
def civilFromDays (z0 : Int) : Int × Int × Int :=
  let z := z0 + 719468
  let era := z.fdiv 146097
  let doe := z - era * 146097
  let yoe := (doe - doe.fdiv 1460 + doe.fdiv 36524 - doe.fdiv 146096).fdiv 365
  let y := yoe + era * 400
  let doy := doe - (365 * yoe + yoe.fdiv 4 - yoe.fdiv 100)
  let mp := (5 * doy + 2).fdiv 153
  let d := doy - (153 * mp + 2).fdiv 5 + 1
  let m := mp + (if mp < 10 then 3 else -9)
  (y + (if m ≤ 2 then 1 else 0), m, d)

/-- Zero-padding to two digits, as `%m` / `%d` in `strftime`. -/
def pad2 (n : Int) : String :=
  if 0 ≤ n ∧ n < 10 then "0" ++ toString n else toString n

/-- The day (as a count of days since the Unix epoch) that
`datetime.datetime.fromtimestamp` assigns to `ts` when the host machine's
time zone is a fixed offset of `tzOffset` seconds from UTC.  Python's
`fromtimestamp` with no `tz` argument converts using the host's local
zone, which is what the parameter models. -/
def dayOf (tzOffset ts : Int) : Int :=
  (ts + tzOffset).fdiv 86400

/-- Format `strftime("%Y-%m-%d")` of a day number. -/
def dateString (day : Int) : String :=
  match civilFromDays day with
  | (y, m, d) => toString y ++ "-" ++ pad2 m ++ "-" ++ pad2 d

/-- The date string `_daily_jobs` computes at line 26:
`datetime.datetime.fromtimestamp(unix_timestamp).strftime('%Y-%m-%d')`. -/
def strftimeDate (tzOffset ts : Int) : String :=
  dateString (dayOf tzOffset ts)

/-- Line 27 of buildjson.py: `data_file = "builds-%s.js" % date`. -/
def dataFileName (tzOffset ts : Int) : String :=
  "builds-" ++ strftimeDate tzOffset ts ++ ".js"

/-- Line 32 of buildjson.py: `url = "%s/%s.gz" % (BUILDJSON_DATA, data_file)`. -/
def archiveUrl (tzOffset ts : Int) : String :=
  BUILDJSON_DATA ++ "/" ++ dataFileName tzOffset ts ++ ".gz"

/-- The local file name of a given day number; `dataFileName tz ts` is
exactly `dayFileName (dayOf tz ts)`. -/
def dayFileName (day : Int) : String :=
  "builds-" ++ dateString day ++ ".js"

/-- Embedding of `_daily_jobs` (buildjson.py lines 17-42).  If the day's file exists it
is parsed directly; otherwise `requests.get` is issued and, whenever a
response arrives (any status code), its body is written to the file, which
is then parsed.  The environment `remote` gives the outcome of
`requests.get` per URL; the result carries the Python-level outcome, the
final filesystem, and the trace of side effects. -/
def dailyJobs (remote : String → HttpResult) (tzOffset : Int) (fs : FS)
    (ts : Int) : Except PyError FileContent × FS × List ArchEvent :=
  let data_file := dataFileName tzOffset ts
  if fsExists fs data_file then
    (jsonLoad (readFile fs data_file), fs, [])
  else
    match remote (archiveUrl tzOffset ts) with
    | .netError => (.error .connectionError, fs, [.fetchFail])
    | .response _status body =>
      (jsonLoad body, fsWrite fs data_file body, [.fetchOk, .diskWrite])

/-- A dynamically typed Python value, as far as the asserts of
`query_buildjson_info` care: note that in Python `type(True) is int` is
`False` (bool is a distinct type), so booleans are a separate constructor. -/
inductive PyVal
  | int (n : Int)
  | float (q : Rat)
  | str (s : String)
  | bool (b : Bool)
deriving Repr, DecidableEq

/-- Check `type(x) is int` on a `PyVal`. -/
def isTypeInt : PyVal → Bool
  | .int _ => true
  | _ => false

/-- The scan of `query_buildjson_info` (buildjson.py lines 82-86):
`for job in builds: if request_id in job["request_ids"]: return job`.
A record missing the `"request_ids"` key raises a `KeyError` when reached;
falling off the loop returns `None` (modelled as `none`). -/
def scanBuilds (builds : List JobRecord) (request_id : Int) :
    Except PyError (Option JobRecord) :=
  match builds with
  | [] => .ok none
  | job :: rest =>
    match job.request_ids with
    | none => .error .keyError
    | some ids =>
      if ids.contains request_id then .ok (some job)
      else scanBuilds rest request_id

/-- Embedding of `query_buildjson_info` (buildjson.py lines 45-86): assert both
arguments are exactly of type int, obtain the day's data via
`_daily_jobs(claimed_at)`, take its `"builds"` entry (a `KeyError` if
absent), and scan it for `request_id`. -/
def query_buildjson_info (remote : String → HttpResult) (tzOffset : Int)
    (fs : FS) (claimed_at request_id : PyVal) :
    Except PyError (Option JobRecord) × FS × List ArchEvent :=
  match claimed_at, request_id with
  | .int ca, .int rid =>
    match dailyJobs remote tzOffset fs ca with
    | (.error e, fs', tr) => (.error e, fs', tr)
    | (.ok (.jsonArchive builds), fs', tr) => (scanBuilds builds rid, fs', tr)
    | (.ok _, fs', tr) => (.error .keyError, fs', tr)
  | _, _ => (.error .assertionError, fs, [])

/-- The predicate "this record's `request_ids` list contains
`request_id`" (false on a record missing the key, which the scan never
treats as a match). -/
def matchesReq (request_id : Int) (j : JobRecord) : Bool :=
  match j.request_ids with
  | some ids => ids.contains request_id
  | none => false

/-- Number of completed HTTP fetches in a trace. -/
def countFetchOk : List ArchEvent → Nat
  | [] => 0
  | e :: tl => (if e = .fetchOk then 1 else 0) + countFetchOk tl

/-- A sequence of `_daily_jobs` calls, one per timestamp, threading the
filesystem and accumulating the side-effect traces. -/
def runCalls (remote : String → HttpResult) (tzOffset : Int) (fs : FS) :
    List Int → FS × List ArchEvent
  | [] => (fs, [])
  | ts :: rest =>
    let r := dailyJobs remote tzOffset fs ts
    let rest' := runCalls remote tzOffset r.2.1 rest
    (rest'.1, r.2.2 ++ rest'.2)

/-- One entry of the repository registry, following the remote registry
document shape: fields `repo` (URL), `graph_branches`, `repo_type`. -/
structure RepoInfo where
  repo : String
  graph_branches : List String
  repo_type : String
deriving Repr, DecidableEq

/-- The repository registry: a mapping from repository short-name to its
entry, as an association list in document order. -/
abbrev Registry := List (String × RepoInfo)

/-- The two mutable tiers of the registry cache: the process-wide memory
mapping (`REPOSITORIES`, empty at process start) and the disk snapshot
(`REPOSITORIES_FILE`, `none` while the file is absent). -/
structure RegState where
  memory : Registry
  disk : Option Registry
deriving Repr, DecidableEq

/-- Observable side effects of one `query_repositories` call: loading the
disk snapshot, writing the disk snapshot, and fetching the remote
document. -/
inductive RegEvent
  | diskLoad
  | diskWrite
  | netFetch
deriving Repr, DecidableEq

/-- Modelled from the spec: `query_repositories` (RegistryCache
`get_registry`); the module `mozci/sources/buildapi.py` is not under
`src/`, only its test suite is.  Resolution order when `clobber` is false:
(1) if the memory tier is non-empty, return it; (2) else if the disk
snapshot exists, load it, populate the memory tier, return it; (3) else
fetch from remote, populate the memory tier, persist the disk snapshot,
return it.  When `clobber` is true: skip memory and disk unconditionally,
fetch from remote, overwrite both tiers, return the fresh result.  The
result carries the returned registry, the new tier state, and the trace of
side effects. -/
def query_repositories (remote : Registry) (st : RegState) (clobber : Bool) :
    Registry × RegState × List RegEvent :=
  if clobber then
    (remote, ⟨remote, some remote⟩, [.netFetch, .diskWrite])
  else if st.memory.isEmpty then
    match st.disk with
    | some r => (r, ⟨r, some r⟩, [.diskLoad])
    | none => (remote, ⟨remote, some remote⟩, [.netFetch, .diskWrite])
  else
    (st.memory, st, [])

/-- Failure of the registry accessors: the requested name is absent from a
successfully resolved registry. -/
inductive AccessError
  | unknownRepository
deriving Repr, DecidableEq

/-- Modelled from the spec: `query_repository` (RegistryAccessors
`get_repository`; `buildapi.py` is not under `src/`).  Calls
`query_repositories` with no clobber, looks up `name`, and fails with
`UnknownRepository` if absent. -/
def query_repository (remote : Registry) (st : RegState) (name : String) :
    Except AccessError RepoInfo × RegState :=
  let res := query_repositories remote st false
  match (res.1).lookup name with
  | some info => (.ok info, res.2.1)
  | none => (.error .unknownRepository, res.2.1)

/-- Modelled from the spec: `query_repo_url` (RegistryAccessors
`get_repository_url`; `buildapi.py` is not under `src/`).  Calls
`query_repository` and extracts the `repo` URL field, propagating
`UnknownRepository`. -/
def query_repo_url (remote : Registry) (st : RegState) (name : String) :
    Except AccessError String × RegState :=
  let r := query_repository remote st name
  (r.1.map (fun info => info.repo), r.2)

/-- Sample record following the scenario in the test data: the job with
request id 71123549 claimed on 2015-06-01. -/
def sampleJob : JobRecord :=
  { builder_id := 72398103, starttime := 1433164406, endtime := 1433166609,
    request_ids := some [71123549], requesttime := 1433164090, result := 0,
    slave_id := 4372, properties := [("buildername", "Linux x86-64 try build")] }

/-- A second well-formed record, with a different request id. -/
def otherJob : JobRecord :=
  { builder_id := 3, starttime := 10, endtime := 20,
    request_ids := some [999], requesttime := 5, result := 0,
    slave_id := 7, properties := [] }

/-- A malformed record: its `"request_ids"` key is missing. -/
def malformedJob : JobRecord :=
  { builder_id := 4, starttime := 0, endtime := 0,
    request_ids := none, requesttime := 0, result := 0,
    slave_id := 0, properties := [] }

/-! ## Theorems -/

theorem scanBuilds_eq_find (builds : List JobRecord) (rid : Int)
    (hwf : ∀ j ∈ builds, j.request_ids.isSome = true) :
    scanBuilds builds rid = .ok (builds.find? (matchesReq rid)) := by
  induction builds with
  | nil => rfl
  | cons j tl ih =>
    have hj : j.request_ids.isSome = true := hwf j (by simp)
    obtain ⟨ids, hids⟩ := Option.isSome_iff_exists.mp hj
    by_cases hc : rid ∈ ids
    · simp [scanBuilds, List.find?, hids, matchesReq, hc]
    · have htl := ih (fun x hx => hwf x (by simp [hx]))
      simp [scanBuilds, List.find?, hids, matchesReq, hc, htl]

/-- C1: for integer arguments, `query_buildjson_info` obtains the day's
records via `_daily_jobs(claimed_at)`, scans them in file order, and
returns the first record whose `request_ids` list contains `request_id`
(`List.find?` is exactly first-match-in-order, so when two records share a
request id the earlier one wins); when no record matches, the not-found
sentinel `none` is returned rather than an error. -/
theorem c1_find_job_returns_first_match (remote : String → HttpResult)
    (tz : Int) (fs : FS) (ca rid : Int) (builds : List JobRecord) (fs' : FS)
    (tr : List ArchEvent)
    (hday : dailyJobs remote tz fs ca = (.ok (.jsonArchive builds), fs', tr))
    (hwf : ∀ j ∈ builds, j.request_ids.isSome = true) :
    query_buildjson_info remote tz fs (.int ca) (.int rid)
      = (.ok (builds.find? (matchesReq rid)), fs', tr) := by
  have hscan := scanBuilds_eq_find builds rid hwf
  simp [query_buildjson_info, hday, hscan]

theorem c1_witness :
    query_buildjson_info
        (fun _ => .response 200 (.jsonArchive [sampleJob, otherJob])) 0 []
        (.int 1433166028) (.int 71123549)
      = (.ok (some sampleJob),
         [("builds-2015-06-01.js", .jsonArchive [sampleJob, otherJob])],
         [.fetchOk, .diskWrite])
  ∧ query_buildjson_info
        (fun _ => .response 200 (.jsonArchive [sampleJob, otherJob])) 0 []
        (.int 1433166028) (.int 123)
      = (.ok none,
         [("builds-2015-06-01.js", .jsonArchive [sampleJob, otherJob])],
         [.fetchOk, .diskWrite]) := by
  constructor
  · exact (c1_find_job_returns_first_match _ 0 [] 1433166028 71123549
      [sampleJob, otherJob]
      [("builds-2015-06-01.js", .jsonArchive [sampleJob, otherJob])]
      [.fetchOk, .diskWrite] (by rfl) (by decide)).trans (by rfl)
  · exact (c1_find_job_returns_first_match _ 0 [] 1433166028 123
      [sampleJob, otherJob]
      [("builds-2015-06-01.js", .jsonArchive [sampleJob, otherJob])]
      [.fetchOk, .diskWrite] (by rfl) (by decide)).trans (by rfl)

/-- C9: `query_buildjson_info` asserts that both `claimed_at` and
`request_id` are of exact type `int`; any call where either argument is a
float, a string, or a bool fails with the contract (assertion) error
before any lookup: the filesystem is untouched and no fetch happens. -/
theorem c9_type_asserts (remote : String → HttpResult) (tz : Int) (fs : FS)
    (claimed_at request_id : PyVal)
    (h : isTypeInt claimed_at = false ∨ isTypeInt request_id = false) :
    query_buildjson_info remote tz fs claimed_at request_id
      = (.error .assertionError, fs, []) := by
  cases claimed_at <;> cases request_id <;>
    simp_all [query_buildjson_info, isTypeInt]

theorem c9_witness :
    query_buildjson_info (fun _ => .netError) 0 []
        (.float (3 : Rat)) (.int 5) = (.error .assertionError, [], [])
  ∧ query_buildjson_info (fun _ => .netError) 0 []
        (.int 1433166028) (.str "71123549") = (.error .assertionError, [], [])
  ∧ query_buildjson_info (fun _ => .netError) 0 []
        (.bool true) (.int 5) = (.error .assertionError, [], []) :=
  ⟨c9_type_asserts _ 0 [] _ _ (Or.inl rfl),
   c9_type_asserts _ 0 [] _ _ (Or.inr rfl),
   c9_type_asserts _ 0 [] _ _ (Or.inl rfl)⟩

/-- C10: the scan short-circuits at the first match.  When every record
strictly before the match has a `request_ids` key not containing the id,
and the matching record contains it, the scan returns that match whatever
comes later in the file — in particular records after the match may be
malformed (missing the `request_ids` key) without causing a failure. -/
theorem c10_scan_short_circuits (pre : List JobRecord) (m : JobRecord)
    (post : List JobRecord) (rid : Int) (ids : List Int)
    (hpre : ∀ j ∈ pre, ∃ l, j.request_ids = some l ∧ l.contains rid = false)
    (hm : m.request_ids = some ids) (hmem : ids.contains rid = true) :
    scanBuilds (pre ++ m :: post) rid = .ok (some m) := by
  induction pre with
  | nil =>
    have hmem' : rid ∈ ids := by simpa using hmem
    simp [scanBuilds, hm, hmem']
  | cons j tl ih =>
    obtain ⟨l, hl, hnc⟩ := hpre j (by simp)
    have hnc' : ¬ rid ∈ l := by simpa using hnc
    have htl := ih (fun x hx => hpre x (by simp [hx]))
    simp [scanBuilds, hl, hnc', htl]

theorem c10_witness :
    scanBuilds [otherJob, sampleJob, malformedJob] 71123549
      = .ok (some sampleJob) :=
  c10_scan_short_circuits [otherJob] sampleJob [malformedJob] 71123549
    [71123549] (by decide) (by decide) (by decide)

theorem dataFileName_eq_dayFile (tz ts : Int) :
    dataFileName tz ts = dayFileName (dayOf tz ts) := rfl

theorem fsExists_write_self (fs : FS) (n : String) (c : FileContent) :
    fsExists (fsWrite fs n c) n = true := by
  simp [fsExists, fsWrite, List.lookup]

theorem readFile_write_self (fs : FS) (n : String) (c : FileContent) :
    readFile (fsWrite fs n c) n = c := by
  simp [readFile, fsWrite, List.lookup]

theorem dailyJobs_of_exists (remote : String → HttpResult) (tz : Int)
    (fs : FS) (ts : Int) (h : fsExists fs (dataFileName tz ts) = true) :
    dailyJobs remote tz fs ts
      = (jsonLoad (readFile fs (dataFileName tz ts)), fs, []) := by
  simp [dailyJobs, h]

theorem dailyJobs_of_absent_net (remote : String → HttpResult) (tz : Int)
    (fs : FS) (ts : Int) (h : fsExists fs (dataFileName tz ts) = false)
    (hr : remote (archiveUrl tz ts) = .netError) :
    dailyJobs remote tz fs ts = (.error .connectionError, fs, [.fetchFail]) := by
  simp [dailyJobs, h, hr]

theorem dailyJobs_of_absent_response (remote : String → HttpResult) (tz : Int)
    (fs : FS) (ts : Int) (status : Nat) (body : FileContent)
    (h : fsExists fs (dataFileName tz ts) = false)
    (hr : remote (archiveUrl tz ts) = .response status body) :
    dailyJobs remote tz fs ts
      = (jsonLoad body, fsWrite fs (dataFileName tz ts) body,
         [.fetchOk, .diskWrite]) := by
  simp [dailyJobs, h, hr]

theorem dailyJobs_ok_file (remote : String → HttpResult) (tz : Int) (fs : FS)
    (ts : Int) (v : FileContent) (fs1 : FS) (tr : List ArchEvent)
    (h : dailyJobs remote tz fs ts = (.ok v, fs1, tr)) :
    fsExists fs1 (dataFileName tz ts) = true ∧
    jsonLoad (readFile fs1 (dataFileName tz ts)) = .ok v := by
  by_cases he : fsExists fs (dataFileName tz ts) = true
  · rw [dailyJobs_of_exists remote tz fs ts he] at h
    have h1 : jsonLoad (readFile fs (dataFileName tz ts)) = .ok v :=
      congrArg Prod.fst h
    have h2 : fs = fs1 := congrArg (fun p => p.2.1) h
    subst h2
    exact ⟨he, h1⟩
  · rw [Bool.not_eq_true] at he
    cases hr : remote (archiveUrl tz ts) with
    | netError =>
      rw [dailyJobs_of_absent_net remote tz fs ts he hr] at h
      exact Except.noConfusion (congrArg Prod.fst h)
    | response status body =>
      rw [dailyJobs_of_absent_response remote tz fs ts status body he hr] at h
      have h1 : jsonLoad body = .ok v := congrArg Prod.fst h
      have h2 : fsWrite fs (dataFileName tz ts) body = fs1 :=
        congrArg (fun p => p.2.1) h
      subst h2
      refine ⟨fsExists_write_self fs _ body, ?_⟩
      rw [readFile_write_self]
      exact h1

theorem countFetchOk_append (a b : List ArchEvent) :
    countFetchOk (a ++ b) = countFetchOk a + countFetchOk b := by
  induction a with
  | nil => simp [countFetchOk]
  | cons e tl ih => simp [countFetchOk, ih, Nat.add_assoc]

theorem runCalls_no_fetch (remote : String → HttpResult) (tz d : Int) :
    ∀ (l : List Int) (fs : FS), (∀ ts ∈ l, dayOf tz ts = d) →
      fsExists fs (dayFileName d) = true →
      countFetchOk (runCalls remote tz fs l).2 = 0 := by
  intro l
  induction l with
  | nil => intro fs _ _; rfl
  | cons ts tl ih =>
    intro fs hdays hex
    have hts : dayOf tz ts = d := hdays ts (by simp)
    have hex' : fsExists fs (dataFileName tz ts) = true := by
      rw [dataFileName_eq_dayFile, hts]; exact hex
    have h1 := dailyJobs_of_exists remote tz fs ts hex'
    simp only [runCalls, h1]
    simpa using ih fs (fun x hx => hdays x (by simp [hx])) hex

theorem runCalls_atMostOne (remote : String → HttpResult) (tz d : Int) :
    ∀ (l : List Int) (fs : FS), (∀ ts ∈ l, dayOf tz ts = d) →
      countFetchOk (runCalls remote tz fs l).2 ≤ 1 := by
  intro l
  induction l with
  | nil => intro fs _; simp [runCalls, countFetchOk]
  | cons ts tl ih =>
    intro fs hdays
    have hts : dayOf tz ts = d := hdays ts (by simp)
    have hd' : ∀ x ∈ tl, dayOf tz x = d := fun x hx => hdays x (by simp [hx])
    by_cases hex : fsExists fs (dataFileName tz ts) = true
    · have h1 := dailyJobs_of_exists remote tz fs ts hex
      simp only [runCalls, h1]
      simpa using ih fs hd'
    · rw [Bool.not_eq_true] at hex
      cases hr : remote (archiveUrl tz ts) with
      | netError =>
        have h1 := dailyJobs_of_absent_net remote tz fs ts hex hr
        simp only [runCalls, h1]
        have := ih fs hd'
        simpa [countFetchOk_append, countFetchOk] using this
      | response status body =>
        have h1 := dailyJobs_of_absent_response remote tz fs ts status body hex hr
        simp only [runCalls, h1]
        have hzero := runCalls_no_fetch remote tz d tl
          (fsWrite fs (dataFileName tz ts) body) hd'
          (by rw [← hts, ← dataFileName_eq_dayFile]
              exact fsExists_write_self fs _ body)
        simp [countFetchOk_append, countFetchOk, hzero]

/-- C4: (i) once the day's local file `builds-<date>.js` exists, a
`_daily_jobs` call for a timestamp of that date parses and returns the
local file, leaves the filesystem unchanged, and performs no remote fetch;
(ii) after any successful call, a later call for a timestamp of the same
calendar day returns the identical content with no side effects; (iii)
across any sequence of calls whose timestamps all fall on one calendar
day, at most one fetch completes. -/
theorem c4_local_file_memoizes (remote : String → HttpResult) (tz : Int) :
    (∀ fs ts, fsExists fs (dataFileName tz ts) = true →
        dailyJobs remote tz fs ts
          = (jsonLoad (readFile fs (dataFileName tz ts)), fs, []))
  ∧ (∀ fs ts1 ts2 v fs1 tr1, dayOf tz ts1 = dayOf tz ts2 →
        dailyJobs remote tz fs ts1 = (.ok v, fs1, tr1) →
        dailyJobs remote tz fs1 ts2 = (.ok v, fs1, []))
  ∧ (∀ fs d (l : List Int), (∀ ts ∈ l, dayOf tz ts = d) →
        countFetchOk (runCalls remote tz fs l).2 ≤ 1) := by
  refine ⟨dailyJobs_of_exists remote tz, ?_, ?_⟩
  · intro fs ts1 ts2 v fs1 tr1 hday h
    obtain ⟨hex, hload⟩ := dailyJobs_ok_file remote tz fs ts1 v fs1 tr1 h
    have hname : dataFileName tz ts2 = dataFileName tz ts1 := by
      rw [dataFileName_eq_dayFile, dataFileName_eq_dayFile, hday]
    rw [dailyJobs_of_exists remote tz fs1 ts2 (by rw [hname]; exact hex),
        hname, hload]
  · intro fs d l hdays
    exact runCalls_atMostOne remote tz d l fs hdays

theorem c4_witness :
    dailyJobs (fun _ => .netError) 0
        [("builds-2015-06-01.js", .jsonArchive [sampleJob])] 1433166028
      = (.ok (.jsonArchive [sampleJob]),
         [("builds-2015-06-01.js", .jsonArchive [sampleJob])], [])
  ∧ dailyJobs (fun _ => .response 200 (.jsonArchive [sampleJob])) 0
        (fsWrite [] "builds-2015-06-01.js" (.jsonArchive [sampleJob]))
        1433116800
      = (.ok (.jsonArchive [sampleJob]),
         fsWrite [] "builds-2015-06-01.js" (.jsonArchive [sampleJob]), [])
  ∧ countFetchOk
        (runCalls (fun _ => .response 200 (.jsonArchive [sampleJob])) 0 []
          [1433116800, 1433166028, 1433166028]).2 ≤ 1 := by
  refine ⟨?_, ?_, ?_⟩
  · exact ((c4_local_file_memoizes (fun _ => .netError) 0).1
      [("builds-2015-06-01.js", .jsonArchive [sampleJob])] 1433166028
      (by rfl)).trans (by rfl)
  · exact (c4_local_file_memoizes (fun _ => .response 200
        (.jsonArchive [sampleJob])) 0).2.1 [] 1433116800 1433166028
      (.jsonArchive [sampleJob])
      (fsWrite [] "builds-2015-06-01.js" (.jsonArchive [sampleJob]))
      [.fetchOk, .diskWrite] (by rfl) (by rfl)
  · exact (c4_local_file_memoizes (fun _ => .response 200
        (.jsonArchive [sampleJob])) 0).2.2 [] 16587
      [1433116800, 1433166028, 1433166028] (by decide)

/-- C5 counterexample: `_daily_jobs` derives the date with
`datetime.datetime.fromtimestamp(unix_timestamp)`, which converts in the
host machine's local time zone.  At the concrete timestamp 1433116800
(2015-06-01 00:00:00 UTC), a host at UTC yields the date string
"2015-06-01" while a host at UTC-01:00 yields "2015-05-31": the date
string, the local file name, and the remote locator all differ between the
two runs, so no fixed documented zone is used. -/
theorem c5_counterexample :
    strftimeDate 0 1433116800 = "2015-06-01"
  ∧ strftimeDate (-3600) 1433116800 = "2015-05-31"
  ∧ dataFileName 0 1433116800 ≠ dataFileName (-3600) 1433116800
  ∧ archiveUrl 0 1433116800 ≠ archiveUrl (-3600) 1433116800 := by
  refine ⟨rfl, rfl, ?_, ?_⟩ <;> decide

/-- C5 amended: the date `_daily_jobs` uses is a function of the calendar
day of the timestamp in the host's local zone (modelled as the fixed
offset `tz`): under one host offset, any two timestamps falling on the
same local day yield the same date string, local file name, and remote
locator — but the derivation depends on the host offset, not on one fixed
documented zone (see the counterexample). -/
theorem c5_amended_host_zone_date (tz ts1 ts2 : Int)
    (h : dayOf tz ts1 = dayOf tz ts2) :
    strftimeDate tz ts1 = strftimeDate tz ts2
  ∧ dataFileName tz ts1 = dataFileName tz ts2
  ∧ archiveUrl tz ts1 = archiveUrl tz ts2 := by
  refine ⟨?_, ?_, ?_⟩ <;>
    simp [strftimeDate, dataFileName, archiveUrl, h]

theorem c5_witness :
    strftimeDate 0 1433116800 = strftimeDate 0 1433166028
  ∧ dataFileName 0 1433116800 = dataFileName 0 1433166028
  ∧ archiveUrl 0 1433116800 = archiveUrl 0 1433166028 :=
  c5_amended_host_zone_date 0 1433116800 1433166028 (by decide)

/-- The remote endpoint behavior on the C6 failing input: `requests.get`
completes with HTTP status 404 and an error page body that is not valid
JSON. -/
def remote404 : String → HttpResult :=
  fun _ => .response 404 (.notJson "404: Not Found")

/-- C6: evaluation of `_daily_jobs` at the failing input (empty cache
directory, timestamp 1433116800, remote answering 404).  The code does not
check `r.status_code`: the 404 body is written to `builds-2015-06-01.js`,
the call fails with the JSON parse error (not the transfer error), the
failed attempt is left cached on disk, and the subsequent call for the
same date serves that cached body from disk without attempting a new
fetch — contradicting the claim on every point except the pure
network-failure case (where `requests.get` itself raises:
`dailyJobs_of_absent_net` shows that exception propagates with no file
written). -/
theorem c6_bug_nonsuccess_status_cached :
    (dailyJobs remote404 0 [] 1433116800).1 = .error .parseError
  ∧ (dailyJobs remote404 0 [] 1433116800).1 ≠ .error .connectionError
  ∧ fsExists (dailyJobs remote404 0 [] 1433116800).2.1
      "builds-2015-06-01.js" = true
  ∧ dailyJobs remote404 0 (dailyJobs remote404 0 [] 1433116800).2.1
      1433116800
      = (.error .parseError, (dailyJobs remote404 0 [] 1433116800).2.1, []) := by
  refine ⟨rfl, ?_, rfl, rfl⟩
  intro h
  exact PyError.noConfusion (Except.error.inj h)

/-- The registry document used by the tests: two repositories. -/
def regSample : Registry :=
  [("repo1", { repo := "https://hg.mozilla.org/releases/repo1",
               graph_branches := ["Repo1"], repo_type := "hg" }),
   ("repo2", { repo := "https://hg.mozilla.org/projects/repo2",
               graph_branches := ["Repo2"], repo_type := "hg" })]

/-- A different registry, used to seed the caches with a sentinel value
distinct from the remote payload. -/
def regOther : Registry :=
  [("real-repo", { repo := "repo", graph_branches := [], repo_type := "hg" })]

/-- C2 (spec-modelled): with `clobber = true`, `query_repositories` issues
exactly one remote fetch, overwrites both the memory tier and the disk
snapshot with the remote payload, and returns the remote payload, for
every starting tier state (in particular when memory and disk hold valid
data different from the remote payload); the returned value does not
depend on the tier state at all. -/
theorem c2_clobber_always_remote (remote : Registry) (st st2 : RegState) :
    (query_repositories remote st true).1 = remote
  ∧ ((query_repositories remote st true).2.1).memory = remote
  ∧ ((query_repositories remote st true).2.1).disk = some remote
  ∧ (query_repositories remote st true).2.2.count .netFetch = 1
  ∧ (query_repositories remote st true).1
      = (query_repositories remote st2 true).1 := by
  refine ⟨rfl, rfl, rfl, ?_, rfl⟩
  exact (by decide :
    List.count RegEvent.netFetch [RegEvent.netFetch, RegEvent.diskWrite] = 1)

/-- C3 (spec-modelled): resolution order of `query_repositories` with
`clobber = false`: a non-empty memory tier is returned with an empty
side-effect trace (no disk load, no fetch); with empty memory and a
present disk snapshot, the snapshot content is returned and the trace has
no fetch; only with empty memory and no disk snapshot is the remote
fetched. -/
theorem c3_resolution_order (remote : Registry) (st : RegState) :
    (st.memory ≠ [] →
        query_repositories remote st false = (st.memory, st, []))
  ∧ (st.memory = [] → ∀ r, st.disk = some r →
        query_repositories remote st false = (r, ⟨r, some r⟩, [.diskLoad]))
  ∧ (st.memory = [] → st.disk = none →
        query_repositories remote st false
          = (remote, ⟨remote, some remote⟩, [.netFetch, .diskWrite])) := by
  obtain ⟨mem, disk⟩ := st
  cases mem with
  | cons a tl =>
    refine ⟨fun _ => rfl, ?_, ?_⟩
    · intro h r hd; exact List.noConfusion h
    · intro h hd; exact List.noConfusion h
  | nil =>
    cases disk with
    | some d =>
      refine ⟨?_, ?_, ?_⟩
      · intro h; exact absurd rfl h
      · intro _ r hd
        cases Option.some.inj hd
        rfl
      · intro _ hd; exact Option.noConfusion hd
    | none =>
      refine ⟨?_, ?_, ?_⟩
      · intro h; exact absurd rfl h
      · intro _ r hd; exact Option.noConfusion hd
      · intro _ _; rfl

theorem c3_witness :
    query_repositories regSample ⟨regOther, none⟩ false
      = (regOther, ⟨regOther, none⟩, [])
  ∧ query_repositories regSample ⟨[], some regOther⟩ false
      = (regOther, ⟨regOther, some regOther⟩, [.diskLoad])
  ∧ query_repositories regSample ⟨[], none⟩ false
      = (regSample, ⟨regSample, some regSample⟩, [.netFetch, .diskWrite]) :=
  ⟨(c3_resolution_order regSample ⟨regOther, none⟩).1 (by decide),
   (c3_resolution_order regSample ⟨[], some regOther⟩).2.1 rfl regOther rfl,
   (c3_resolution_order regSample ⟨[], none⟩).2.2 rfl rfl⟩

/-- C7 (spec-modelled): after any resolution of `query_repositories`
(whatever tier supplied the data, with or without clobber), the memory
tier equals the returned registry; whenever a remote fetch happened, the
disk snapshot was rewritten to the returned registry; and (for a non-empty
result, since an empty memory mapping is indistinguishable from an
unpopulated tier) the next `clobber = false` call is served from memory
with an empty side-effect trace. -/
theorem c7_memory_writethrough (remote : Registry) (st : RegState)
    (clobber : Bool) :
    ((query_repositories remote st clobber).2.1).memory
        = (query_repositories remote st clobber).1
  ∧ (RegEvent.netFetch ∈ (query_repositories remote st clobber).2.2 →
        ((query_repositories remote st clobber).2.1).disk
            = some (query_repositories remote st clobber).1
        ∧ RegEvent.diskWrite ∈ (query_repositories remote st clobber).2.2)
  ∧ ((query_repositories remote st clobber).1 ≠ [] →
        query_repositories remote
            ((query_repositories remote st clobber).2.1) false
          = ((query_repositories remote st clobber).1,
             (query_repositories remote st clobber).2.1, [])) := by
  obtain ⟨mem, disk⟩ := st
  cases clobber with
  | true =>
    refine ⟨rfl, fun _ => ⟨rfl, (by decide :
      RegEvent.diskWrite ∈ [RegEvent.netFetch, RegEvent.diskWrite])⟩, ?_⟩
    intro h
    cases remote with
    | nil => exact absurd rfl h
    | cons a tl => rfl
  | false =>
    cases mem with
    | cons a tl =>
      refine ⟨rfl, ?_, fun _ => rfl⟩
      intro hin
      exact absurd hin (by decide : RegEvent.netFetch ∉ ([] : List RegEvent))
    | nil =>
      cases disk with
      | some r =>
        refine ⟨rfl, ?_, ?_⟩
        · intro hin
          exact absurd hin
            (by decide : RegEvent.netFetch ∉ [RegEvent.diskLoad])
        · intro h
          cases r with
          | nil => exact absurd rfl h
          | cons a tl => rfl
      | none =>
        refine ⟨rfl, fun _ => ⟨rfl, (by decide :
          RegEvent.diskWrite ∈ [RegEvent.netFetch, RegEvent.diskWrite])⟩, ?_⟩
        intro h
        cases remote with
        | nil => exact absurd rfl h
        | cons a tl => rfl

theorem c7_witness :
    ((query_repositories regSample ⟨regOther, some regOther⟩ true).2.1).memory
        = (query_repositories regSample ⟨regOther, some regOther⟩ true).1
  ∧ query_repositories regSample
        ((query_repositories regSample ⟨regOther, some regOther⟩ true).2.1)
        false
      = ((query_repositories regSample ⟨regOther, some regOther⟩ true).1,
         (query_repositories regSample ⟨regOther, some regOther⟩ true).2.1,
         []) :=
  ⟨(c7_memory_writethrough regSample ⟨regOther, some regOther⟩ true).1,
   (c7_memory_writethrough regSample ⟨regOther, some regOther⟩ true).2.2
     (by decide)⟩

/-- C8 (spec-modelled): for every name bound in the resolved registry,
`query_repo_url` returns the `repo` URL field of that name's entry (and
`query_repository` returns the entry); for every name absent from the
resolved registry, both fail with `UnknownRepository` instead of returning
a default. -/
theorem c8_accessors (remote : Registry) (st : RegState) (name : String) :
    (∀ info,
        ((query_repositories remote st false).1).lookup name = some info →
          (query_repository remote st name).1 = .ok info
          ∧ (query_repo_url remote st name).1 = .ok info.repo)
  ∧ (((query_repositories remote st false).1).lookup name = none →
        (query_repository remote st name).1 = .error .unknownRepository
        ∧ (query_repo_url remote st name).1 = .error .unknownRepository) := by
  constructor
  · intro info hl
    have h1 : (query_repository remote st name).1 = .ok info := by
      simp [query_repository, hl]
    exact ⟨h1, by simp [query_repo_url, h1, Except.map]⟩
  · intro hl
    have h1 : (query_repository remote st name).1
        = .error .unknownRepository := by
      simp [query_repository, hl]
    exact ⟨h1, by simp [query_repo_url, h1, Except.map]⟩

theorem c8_witness :
    (query_repo_url regSample ⟨[], none⟩ "repo1").1
      = .ok "https://hg.mozilla.org/releases/repo1"
  ∧ (query_repository regSample ⟨[], none⟩ "missing").1
      = .error .unknownRepository
  ∧ (query_repo_url regSample ⟨[], none⟩ "missing").1
      = .error .unknownRepository := by
  refine ⟨?_, ?_, ?_⟩
  · exact ((c8_accessors regSample ⟨[], none⟩ "repo1").1
      { repo := "https://hg.mozilla.org/releases/repo1",
        graph_branches := ["Repo1"], repo_type := "hg" } (by rfl)).2
  · exact ((c8_accessors regSample ⟨[], none⟩ "missing").2 (by rfl)).1
  · exact ((c8_accessors regSample ⟨[], none⟩ "missing").2 (by rfl)).2

end Mozci
